import Mathlib

/-
Verification of the connection registry and message-routing engine of the
WebSocket relay (src/server.py, with configuration from src/config.py).

The embedding is shallow and executable:
  * JSON values (the wire frames after `json.loads`) are the inductive `JVal`.
  * The mutable state of `WebSocketManager` (its four dicts) is the structure
    `MState`; Python dicts become association lists with insertion-order
    semantics (`alookup`, `aset`, delete-as-filter).
  * `str(uuid.uuid4())` draws (connection ids and message ids) are modelled by
    the monotone counter `MState.nextId`, which guarantees exactly the property
    the code relies on: each draw is fresh.
  * `datetime.now()` is a `Nat` (seconds) passed in explicitly; the
    `timedelta.seconds` field read by `health_check` is `(now - t) % 86400`
    (Python keeps only the seconds-within-a-day component there).
  * Python exceptions are the `Except PyExc` monad; dynamic attribute and
    subscript errors (`.get` on a non-dict, `["k"]` on a list, `in` on a
    number) are raised faithfully, and `try/except Exception` blocks absorb
    every `PyExc`.
  * Transport writes and registry mutations visible to other components are
    recorded in an `Output` trace; whether a given socket's `send` raises
    `ConnectionClosed` is an environment parameter `fails : Nat → Bool`
    (handles are `Nat`s).
-/

namespace WsServer

-- A parsed JSON value. `obj`/`arr` use the auxiliary mutual types so that
-- decidable equality can be derived.
mutual

inductive JVal where
  | str : String → JVal
  | num : Nat → JVal
  | bool : Bool → JVal
  | null : JVal
  | arr : JArr → JVal
  | obj : JObj → JVal
  deriving DecidableEq, Repr

inductive JArr where
  | nil : JArr
  | cons : JVal → JArr → JArr
  deriving DecidableEq, Repr

inductive JObj where
  | nil : JObj
  | cons : String → JVal → JObj → JObj
  deriving DecidableEq, Repr

end

/-- Build a JSON object from a list of key/value pairs. -/
def JObj.ofList : List (String × JVal) → JObj
  | [] => .nil
  | (k, v) :: rest => .cons k v (JObj.ofList rest)

/-- Build a JSON array from a list of values. -/
def JArr.ofList : List JVal → JArr
  | [] => .nil
  | v :: rest => .cons v (JArr.ofList rest)

/-- The elements of a JSON array, as a list. -/
def JArr.toList : JArr → List JVal
  | .nil => []
  | .cons v rest => v :: rest.toList

/-- Dictionary lookup (first binding wins, as in a Python dict, whose keys are
unique). -/
def JObj.lookup : JObj → String → Option JVal
  | .nil, _ => none
  | .cons k v rest, key => if k = key then some v else rest.lookup key

/-- Python `key in dict`. -/
def JObj.hasKey (o : JObj) (key : String) : Bool :=
  (o.lookup key).isSome

/-- Python exceptions that the embedded code can raise.  All of them derive
from `Exception`, so an `except Exception` clause catches each of them. -/
inductive PyExc where
  | jsonDecodeError
  | attributeError
  | typeError
  | keyError
  | connectionClosed
  deriving DecidableEq, Repr

/-- Python truthiness of a JSON value (`if value:`). -/
def truthy : JVal → Bool
  | .str s => !s.isEmpty
  | .num n => decide (n ≠ 0)
  | .bool b => b
  | .null => false
  | .arr .nil => false
  | .arr (.cons _ _) => true
  | .obj .nil => false
  | .obj (.cons _ _ _) => true

/-- Truthiness of a Python expression that may be `None` (`none` here). -/
def truthyO : Option JVal → Bool
  | none => false
  | some v => truthy v

/-- Python `needle in haystack` for strings: substring test. -/
def strIn (needle haystack : String) : Bool :=
  needle.isEmpty || decide ((haystack.splitOn needle).length > 1)

/-- Python `key in value` where `value` is an arbitrary JSON value: key
membership on dicts, element membership on lists, substring test on strings,
`TypeError` on numbers, booleans and `None`. -/
def pyContains (v : JVal) (key : String) : Except PyExc Bool :=
  match v with
  | .obj o => .ok (o.hasKey key)
  | .arr a => .ok (a.toList.any (fun x => decide (x = JVal.str key)))
  | .str s => .ok (strIn key s)
  | .num _ => .error .typeError
  | .bool _ => .error .typeError
  | .null => .error .typeError

/-- Python `value.get(key)`: `None` when absent, `AttributeError` when `value`
is not a dict. -/
def jget (v : JVal) (key : String) : Except PyExc (Option JVal) :=
  match v with
  | .obj o => .ok (o.lookup key)
  | _ => .error .attributeError

/-- Python `value.get(key, default)`. -/
def jgetD (v : JVal) (key : String) (dflt : JVal) : Except PyExc JVal :=
  match v with
  | .obj o => .ok ((o.lookup key).getD dflt)
  | _ => .error .attributeError

/-- Association-list lookup: the model of Python `d[k]` / `d.get(k)` for the
manager's dicts. -/
def alookup {κ β : Type} [DecidableEq κ] : List (κ × β) → κ → Option β
  | [], _ => none
  | p :: rest, k => if p.1 = k then some p.2 else alookup rest k

/-- Association-list update: the model of Python `d[k] = v` (overwrites the
existing binding in place, appends a new binding at the end). -/
def aset {κ β : Type} [DecidableEq κ] (l : List (κ × β)) (k : κ) (v : β) :
    List (κ × β) :=
  if (alookup l k).isSome then
    l.map (fun p => if p.1 = k then (k, v) else p)
  else
    l ++ [(k, v)]

/-- Association-list delete: the model of Python `del d[k]` (guarded by a
membership test in the source, so deleting an absent key is a no-op). -/
def adel {κ β : Type} [DecidableEq κ] (l : List (κ × β)) (k : κ) :
    List (κ × β) :=
  l.filter (fun p => decide (p.1 ≠ k))

/-- Events observable outside the manager's own dicts: a write attempt on a
socket, a call to `unregister`, and a call to `broadcast`. -/
inductive Output where
  | send : Nat → JVal → Output
  | unreg : JVal → Option Nat → Output
  | bcast : JVal → JVal → Output
  deriving DecidableEq, Repr

/-- The state of the global `WebSocketManager` (server.py lines 23-32):
`user_connections` (user id → socket handle), `connection_users`
(connection id → user id), `user_channels` (user id → subscribed channels,
a `defaultdict(set)`), `active_users` (user id → last-activity instant),
plus the uuid4 counter `nextId`. -/
structure MState where
  user_connections : List (JVal × Nat)
  connection_users : List (Nat × JVal)
  user_channels : List (JVal × List JVal)
  active_users : List (JVal × Nat)
  nextId : Nat
  deriving DecidableEq, Repr

/-- config.py: `CONNECTION_TIMEOUT = 300` (seconds). -/
def CONNECTION_TIMEOUT : Nat := 300

/-- config.py: `HEARTBEAT_INTERVAL = 30` (seconds). -/
def HEARTBEAT_INTERVAL : Nat := 30

/-- `WebSocketManager.register` (server.py lines 34-42): draws a fresh
connection id, stores the socket for the user (replacing any previous one),
records the connection id → user binding, and stamps `active_users` with the
current time.  Returns the updated state and the new connection id. -/
def register (st : MState) (now : Nat) (websocket : Nat) (user_id : JVal) :
    MState × Nat :=
  let connection_id := st.nextId
  ({ st with
      nextId := st.nextId + 1,
      connection_users := aset st.connection_users connection_id user_id,
      user_connections := aset st.user_connections user_id websocket,
      active_users := aset st.active_users user_id now },
   connection_id)

/-- `WebSocketManager.unregister` (server.py lines 44-55): deletes the user's
socket entry and last-activity entry unconditionally when present, and deletes
the `connection_users` entry only when a connection id was passed. -/
def unregister (st : MState) (user_id : JVal) (connection_id : Option Nat) :
    MState :=
  { st with
      user_connections := adel st.user_connections user_id,
      connection_users :=
        match connection_id with
        | some cid => adel st.connection_users cid
        | none => st.connection_users,
      active_users := adel st.active_users user_id }

/-- `WebSocketManager.send_to_user` (server.py lines 57-68): looks the user up;
if present, attempts the write; on `ConnectionClosed` it unregisters the user
(without a connection id) and returns `false`; returns `true` only after a
successful write; returns `false` when the user is not registered. -/
def send_to_user (fails : Nat → Bool) (st : MState) (user_id : JVal)
    (message : JVal) : MState × List Output × Bool :=
  match alookup st.user_connections user_id with
  | some websocket =>
      if fails websocket then
        (unregister st user_id none,
         [Output.send websocket message, Output.unreg user_id none], false)
      else
        (st, [Output.send websocket message], true)
  | none => (st, [], false)

/-- `WebSocketManager.broadcast` (server.py lines 70-80): schedules a write of
the message to every registered user other than `exclude_user` (building the
coroutine list raises nothing, so the `try/except` around `append` is dead
code), then awaits them through `asyncio.gather` with default
`return_exceptions=False`: every scheduled write is attempted, and if any of
them raises `ConnectionClosed` the first such exception propagates to the
caller of `broadcast`.  Returns the trace (a `bcast` marker followed by the
write attempts) and the exception, if one escaped. -/
def broadcast (fails : Nat → Bool) (st : MState) (message : JVal)
    (exclude_user : JVal) : List Output × Option PyExc :=
  let recipients := st.user_connections.filter (fun p => decide (p.1 ≠ exclude_user))
  (Output.bcast message exclude_user ::
     recipients.map (fun p => Output.send p.2 message),
   if recipients.any (fun p => fails p.2) then some .connectionClosed else none)

/-- `WebSocketManager.get_online_users` (server.py lines 82-84). -/
def get_online_users (st : MState) : List JVal :=
  st.active_users.map (fun p => p.1)

/-- `WebSocketManager.update_user_activity` (server.py lines 86-88). -/
def update_user_activity (st : MState) (now : Nat) (user_id : JVal) : MState :=
  { st with active_users := aset st.active_users user_id now }

/-- `ws_manager.user_channels[user_id]` as a value: a `defaultdict(set)` read,
yielding the empty set for an unknown user. -/
def channels_of (st : MState) (user_id : JVal) : List JVal :=
  (alookup st.user_channels user_id).getD []

/-- `defaultdict` materialisation: a bare `ws_manager.user_channels[user_id]`
getitem inserts an empty set for a missing key. -/
def channels_ensure (st : MState) (user_id : JVal) : MState :=
  { st with user_channels := aset st.user_channels user_id (channels_of st user_id) }

/-- `ws_manager.user_channels[user_id].add(channel)` (server.py line 229). -/
def channels_add (st : MState) (user_id : JVal) (channel : JVal) : MState :=
  let cur := channels_of st user_id
  { st with
      user_channels :=
        aset st.user_channels user_id
          (if channel ∈ cur then cur else cur ++ [channel]) }

/-- `ws_manager.user_channels[user_id].remove(channel)` (server.py line 235).
Only called under a membership guard, so no `KeyError` arises. -/
def channels_remove (st : MState) (user_id : JVal) (channel : JVal) : MState :=
  { st with
      user_channels :=
        aset st.user_channels user_id
          ((channels_of st user_id).filter (fun c => decide (c ≠ channel))) }

/-- `MessageHandler.create_message` (server.py lines 92-103): builds the
standard envelope, drawing a fresh uuid4 for `message_id` (the counter) and
stamping the current time; the `sender` field is added only when the `sender`
argument is truthy (the Python default is `None`; pass `.null` for it here). -/
def create_message (st : MState) (now : Nat) (msg_type : String) (data : JVal)
    (sender : JVal) : MState × JVal :=
  let mid := st.nextId
  let base : List (String × JVal) :=
    [("type", .str msg_type), ("data", data),
     ("timestamp", .str (toString now)),
     ("message_id", .str (toString mid))]
  ({ st with nextId := mid + 1 },
   .obj (JObj.ofList (if truthy sender then base ++ [("sender", sender)] else base)))

/-- `MessageHandler.validate_message` (server.py lines 105-109):
`all(field in message for field in ["type", "data", "timestamp"])`, with
Python's short-circuit evaluation and with the `in` operator's dynamic
behaviour (it can raise `TypeError` on non-container frames). -/
def validate_message (message : JVal) : Except PyExc Bool := do
  let h1 ← pyContains message "type"
  if !h1 then return false
  let h2 ← pyContains message "data"
  if !h2 then return false
  pyContains message "timestamp"

/-- `authenticate` (server.py lines 117-130): accepts the frame only when its
`type` equals `"auth"` and `data` carries a truthy `user_id` and a truthy
`token`, in which case it returns the `user_id` value; in every other case it
returns `None` — there is no other rejection channel.  `.get` on a non-dict
frame raises `AttributeError`. -/
def authenticate (message : JVal) : Except PyExc (Option JVal) := do
  let t ← jget message "type"
  if t = some (.str "auth") then
    let d ← jgetD message "data" (.obj .nil)
    let user_id ← jget d "user_id"
    let token ← jget d "token"
    if truthyO user_id && truthyO token then
      return user_id
    else
      return none
  else
    return none

/-- A raw inbound websocket frame: either text that is not valid JSON
(`json.loads` raises `JSONDecodeError`) or a parsed JSON value. -/
inductive RawFrame where
  | malformed : RawFrame
  | frame : JVal → RawFrame
  deriving DecidableEq, Repr

/-- `json.loads` on a raw frame. -/
def parseFrame : RawFrame → Except PyExc JVal
  | .malformed => .error .jsonDecodeError
  | .frame v => .ok v

/-- How the `async for` read loop of a connection terminates: the iterator
ends cleanly, or it raises `ConnectionClosed`, or some other exception is
raised at loop level.  All three reach the `finally` block of
`handle_message`. -/
inductive TermCause where
  | cleanClose
  | connClosed
  | otherExc
  deriving DecidableEq, Repr

/-- The externally-determined script of one connection: the first frame (or
`none` when the 10-second authentication wait times out), the frames consumed
by the read loop, and how the loop terminates. -/
structure ConnInput where
  authFrame : Option RawFrame
  frames : List RawFrame
  term : TermCause
  deriving DecidableEq, Repr

/-- The body of the per-frame `try` block of the read loop (server.py lines
176-245): parse, validate, touch the user's activity, and dispatch on
`data["type"]`.  Returns the state and trace as they stand when the body
finishes, together with the exception if one was raised (the caller's
`except json.JSONDecodeError` / `except Exception` clauses absorb it).
State changes made before a raise (for example the activity touch) persist. -/
def handleFrameE (fails : Nat → Bool) (now : Nat) (websocket : Nat)
    (user_id : JVal) (st : MState) (f : RawFrame) :
    MState × List Output × Option PyExc :=
  match parseFrame f with
  | .error e => (st, [], some e)
  | .ok data =>
  match validate_message data with
  | .error e => (st, [], some e)
  | .ok false => (st, [], none)
  | .ok true =>
  let st := update_user_activity st now user_id
  match data with
  | .obj o =>
    match o.lookup "type" with
    | none => (st, [], some .keyError)
    | some msg_type =>
    if msg_type = .str "ping" then
      let pong : JVal :=
        .obj (JObj.ofList [("type", .str "pong"), ("timestamp", .str (toString now))])
      (st, [Output.send websocket pong],
       if fails websocket then some .connectionClosed else none)
    else if msg_type = .str "send_message" then
      match o.lookup "data" with
      | none => (st, [], some .keyError)
      | some d =>
      match jget d "target_user" with
      | .error e => (st, [], some e)
      | .ok target =>
      match jget d "content" with
      | .error e => (st, [], some e)
      | .ok content =>
      if truthyO target && truthyO content then
        let target_user := target.getD .null
        let (st, msg) := create_message st now "new_message"
          (.obj (JObj.ofList
            [("content", content.getD .null), ("from_user", user_id),
             ("to_user", target_user)]))
          user_id
        let (st, souts, success) := send_to_user fails st target_user msg
        let (st, receipt) := create_message st now "message_receipt"
          (.obj (JObj.ofList
            [("message_id", (o.lookup "message_id").getD .null),
             ("status", .str (if success then "delivered" else "failed")),
             ("target_user", target_user)]))
          .null
        (st, souts ++ [Output.send websocket receipt],
         if fails websocket then some .connectionClosed else none)
      else
        (st, [], none)
    else if msg_type = .str "subscribe" then
      match o.lookup "data" with
      | none => (st, [], some .keyError)
      | some d =>
      match jget d "channel" with
      | .error e => (st, [], some e)
      | .ok channel =>
      if truthyO channel then
        (channels_add st user_id (channel.getD .null), [], none)
      else
        (st, [], none)
    else if msg_type = .str "unsubscribe" then
      match o.lookup "data" with
      | none => (st, [], some .keyError)
      | some d =>
      match jget d "channel" with
      | .error e => (st, [], some e)
      | .ok channel =>
      if truthyO channel then
        let st := channels_ensure st user_id
        if (channel.getD .null) ∈ channels_of st user_id then
          (channels_remove st user_id (channel.getD .null), [], none)
        else
          (st, [], none)
      else
        (st, [], none)
    else if msg_type = .str "get_online_users" then
      let (st, response) := create_message st now "online_users"
        (.obj (JObj.ofList [("users", .arr (JArr.ofList (get_online_users st)))]))
        .null
      (st, [Output.send websocket response],
       if fails websocket then some .connectionClosed else none)
    else
      (st, [], none)
  | _ =>
    -- `data["type"]` on a non-dict value that passed validation (a list or a
    -- string containing the three field names) raises `TypeError`.
    (st, [], some .typeError)

/-- One iteration of the read loop: the `try` body with its
`except json.JSONDecodeError` / `except Exception` clauses, which log the
exception and fall through to the next frame. -/
def loopStep (fails : Nat → Bool) (now : Nat) (websocket : Nat)
    (user_id : JVal) (st : MState) (f : RawFrame) : MState × List Output :=
  let r := handleFrameE fails now websocket user_id st f
  (r.1, r.2.1)

/-- The read loop `async for message in websocket` (server.py lines 175-249)
over a finite script of frames. -/
def runLoop (fails : Nat → Bool) (now : Nat) (websocket : Nat) (user_id : JVal)
    (st : MState) : List RawFrame → MState × List Output
  | [] => (st, [])
  | f :: rest =>
      let r1 := loopStep fails now websocket user_id st f
      let r2 := runLoop fails now websocket user_id r1.1 rest
      (r2.1, r1.2 ++ r2.2)

/-- The post-registration part of `handle_message`'s outer `try` body
(server.py lines 155-249): send the `connection_established` envelope,
broadcast `user_online` excluding the new user, then run the read loop.  A
`ConnectionClosed` from the welcome send, or an exception re-raised out of
`asyncio.gather` by the broadcast, aborts the rest of the body; in all cases
control falls through to the `finally` block.  The loop's termination cause
(`ConnInput.term`) does not change state or trace: every cause lands in
`finally`. -/
def activeBody (fails : Nat → Bool) (now : Nat) (websocket : Nat)
    (user_id : JVal) (connection_id : Nat) (st : MState)
    (frames : List RawFrame) : MState × List Output :=
  let r0 := create_message st now "connection_established"
    (.obj (JObj.ofList
      [("user_id", user_id), ("connection_id", .str (toString connection_id))]))
    .null
  if fails websocket then
    (r0.1, [Output.send websocket r0.2])
  else
    let r1 := create_message r0.1 now "user_online"
      (.obj (JObj.ofList [("user_id", user_id)])) (.str "system")
    let b := broadcast fails r1.1 r1.2 user_id
    match b.2 with
    | some _ => (r1.1, Output.send websocket r0.2 :: b.1)
    | none =>
        let lp := runLoop fails now websocket user_id r1.1 frames
        (lp.1, Output.send websocket r0.2 :: b.1 ++ lp.2)

/-- The `error` envelope sent on authentication failure
(server.py lines 146-149). -/
def authFailEnvelope : JVal :=
  .obj (JObj.ofList
    [("type", .str "error"),
     ("data", .obj (JObj.ofList [("message", .str "认证失败")]))])

/-- `handle_message` (server.py lines 133-268), the per-connection dispatcher:
wait for the first frame with a timeout, parse it, authenticate, register the
session, run `activeBody`, and in the `finally` block — reached from every
path — unregister and broadcast `user_offline` if and only if a truthy
identity was assigned.  An exception anywhere in the body (auth timeout,
JSON decode error, an `AttributeError` out of `authenticate`, a transport
failure, a broadcast failure, or a loop-level error) is caught by the outer
`except` clauses before the `finally` runs. -/
def handle_message (fails : Nat → Bool) (now : Nat) (websocket : Nat)
    (inp : ConnInput) (st0 : MState) : MState × List Output :=
  match inp.authFrame with
  | none => (st0, [])
  | some raw =>
    match parseFrame raw with
    | .error _ => (st0, [])
    | .ok auth_data =>
      match authenticate auth_data with
      | .error _ => (st0, [])
      | .ok uidOpt =>
        if truthyO uidOpt then
          let user_id := uidOpt.getD .null
          let r := register st0 now websocket user_id
          let body := activeBody fails now websocket user_id r.2 r.1 inp.frames
          let stu := unregister body.1 user_id (some r.2)
          let rOff := create_message stu now "user_offline"
            (.obj (JObj.ofList [("user_id", user_id)])) (.str "system")
          let b := broadcast fails rOff.1 rOff.2 user_id
          (rOff.1, body.2 ++ [Output.unreg user_id (some r.2)] ++ b.1)
        else
          -- authentication failed: report and return; `user_id` is `None`
          -- (or the falsy rejection), so the `finally` block does nothing.
          (st0, [Output.send websocket authFailEnvelope])

/-- One tick of `health_check` (server.py lines 271-284): collect every user
whose `(now - last_active).seconds` — the seconds-within-a-day component of
the timedelta, i.e. `(now - t) % 86400` — exceeds `CONNECTION_TIMEOUT`, then
unregister each collected user without a connection id.  No broadcast is
issued. -/
def health_check_tick (st : MState) (now : Nat) : MState × List Output :=
  let inactive_users :=
    (st.active_users.filter
      (fun p => decide ((now - p.2) % 86400 > CONNECTION_TIMEOUT))).map
      (fun p => p.1)
  (inactive_users.foldl (fun s u => unregister s u none) st,
   inactive_users.map (fun u => Output.unreg u none))

/-! ### Association-list lemmas -/

theorem alookup_adel_self {κ β : Type} [DecidableEq κ] (l : List (κ × β)) (k : κ) :
    alookup (adel l k) k = none := by
  induction l with
  | nil => rfl
  | cons p rest ih =>
      by_cases h : p.1 = k
      · simpa [adel, h] using ih
      · simpa [adel, alookup, h] using ih

theorem alookup_adel_ne {κ β : Type} [DecidableEq κ] (l : List (κ × β)) (k u : κ)
    (h : u ≠ k) : alookup (adel l k) u = alookup l u := by
  induction l with
  | nil => rfl
  | cons p rest ih =>
      by_cases hk : p.1 = k
      · have hku : ¬ (k = u) := fun hh => h hh.symm
        simpa [adel, alookup, List.filter_cons, hk, hku] using ih
      · by_cases hu : p.1 = u
        · simp [adel, alookup, List.filter_cons, hk, hu, h]
        · simpa [adel, alookup, List.filter_cons, hk, hu] using ih

theorem alookup_aset_self {κ β : Type} [DecidableEq κ] (l : List (κ × β)) (k : κ)
    (v : β) : alookup (aset l k v) k = some v := by
  unfold aset
  by_cases h : (alookup l k).isSome
  · simp only [h, if_true]
    induction l with
    | nil => simp [alookup] at h
    | cons p rest ih =>
        by_cases hk : p.1 = k
        · simp [alookup, hk]
        · simp only [alookup, hk, if_false] at h
          simpa [alookup, hk] using ih h
  · simp only [h, if_false]
    induction l with
    | nil => simp [alookup]
    | cons p rest ih =>
        by_cases hk : p.1 = k
        · simp [alookup, hk] at h
        · simp only [alookup, hk, if_false] at h ⊢
          exact ih h

/-! ### Reaper fold lemmas -/

theorem foldl_unregister_state (l : List JVal) (st : MState) :
    ((l.foldl (fun s u => unregister s u none) st).user_connections
        = st.user_connections.filter (fun p => decide (p.1 ∉ l)))
    ∧ ((l.foldl (fun s u => unregister s u none) st).active_users
        = st.active_users.filter (fun p => decide (p.1 ∉ l)))
    ∧ ((l.foldl (fun s u => unregister s u none) st).connection_users
        = st.connection_users)
    ∧ ((l.foldl (fun s u => unregister s u none) st).user_channels
        = st.user_channels)
    ∧ ((l.foldl (fun s u => unregister s u none) st).nextId = st.nextId) := by
  induction l generalizing st with
  | nil => simp
  | cons u rest ih =>
      obtain ⟨ih1, ih2, ih3, ih4, ih5⟩ := ih (unregister st u none)
      refine ⟨?_, ?_, ?_, ?_, ?_⟩
      · rw [List.foldl_cons, ih1]
        show (adel st.user_connections u).filter _ = _
        rw [adel, List.filter_filter]
        refine List.filter_congr (fun p _ => ?_)
        simp [List.mem_cons, not_or, Bool.and_comm]
      · rw [List.foldl_cons, ih2]
        show (adel st.active_users u).filter _ = _
        rw [adel, List.filter_filter]
        refine List.filter_congr (fun p _ => ?_)
        simp [List.mem_cons, not_or, Bool.and_comm]
      · rw [List.foldl_cons, ih3]; rfl
      · rw [List.foldl_cons, ih4]; rfl
      · rw [List.foldl_cons, ih5]; rfl

/-! ### Claim C1 — `unregister` and the connection-id guard -/

/-- A one-user state for the C1 counterexample: alice is registered with
socket 7, her stored connection id is 1, her last activity is 5. -/
def c1State : MState :=
  ⟨[(.str "alice", 7)], [(1, .str "alice")], [], [(.str "alice", 5)], 2⟩

/-- C1 counterexample: the claim says that `unregister(I, cid)` with a `cid`
different from the stored connection id leaves the Session, its handle and its
last-activity entry unchanged.  In the code there is no such match check:
calling `unregister` with the stale id 2 — while the stored id for alice is
1 — still deletes alice's socket entry and her last-activity entry. -/
theorem C1_counterexample :
    alookup c1State.user_connections (.str "alice") = some 7
    ∧ (1, JVal.str "alice") ∈ c1State.connection_users
    ∧ ((2 : Nat) = 1 → False)
    ∧ alookup (unregister c1State (.str "alice") (some 2)).user_connections
        (.str "alice") = none
    ∧ alookup (unregister c1State (.str "alice") (some 2)).active_users
        (.str "alice") = none := by
  refine ⟨rfl, ?_, by decide, rfl, rfl⟩
  simp [c1State]

/-- C1 amended: `unregister(I, cid)` removes I's Session and last-activity
entry unconditionally, whatever `cid` is (there is no match against the stored
connection id); entries of other identities survive; the channel bookkeeping
is untouched; and the `connection_users` entry is deleted exactly when a
connection id is passed. -/
theorem C1_unregister_unconditional (st : MState) (uid u : JVal)
    (cid : Option Nat) :
    alookup (unregister st uid cid).user_connections uid = none
    ∧ alookup (unregister st uid cid).active_users uid = none
    ∧ (u ≠ uid →
        alookup (unregister st uid cid).user_connections u
          = alookup st.user_connections u)
    ∧ (u ≠ uid →
        alookup (unregister st uid cid).active_users u
          = alookup st.active_users u)
    ∧ (unregister st uid cid).user_channels = st.user_channels
    ∧ (unregister st uid cid).connection_users
        = (match cid with
           | some c => adel st.connection_users c
           | none => st.connection_users) := by
  refine ⟨alookup_adel_self _ _, alookup_adel_self _ _,
    fun h => alookup_adel_ne _ _ _ h, fun h => alookup_adel_ne _ _ _ h,
    rfl, rfl⟩

/-- C1 witness: the amended theorem applied at a concrete state, with the
"other identity" hypothesis discharged for bob. -/
theorem C1_unregister_unconditional_witness :
    JVal.str "bob" ≠ JVal.str "alice"
    ∧ alookup (unregister c1State (.str "alice") (some 2)).user_connections
        (.str "bob")
      = alookup c1State.user_connections (.str "bob") :=
  ⟨by decide,
   (C1_unregister_unconditional c1State (.str "alice") (.str "bob")
      (some 2)).2.2.1 (by decide)⟩

/-! ### Claim C2 — the reaper tick -/

/-- A state for the C2 counterexample: alice (socket 1, last active at 0) and
bob (socket 2, last active at 350). -/
def c2State : MState :=
  ⟨[(.str "alice", 1), (.str "bob", 2)],
   [(10, .str "alice"), (11, .str "bob")], [],
   [(.str "alice", 0), (.str "bob", 350)], 12⟩

/-- C2 counterexample: at time 400, alice has been idle for 400 > 300 seconds
and bob (another registered session, idle 50 seconds) is online.  The claim
says the tick evicts alice **and** issues a `user_offline` broadcast that bob
observes.  The code evicts alice but the tick's trace is a bare `unregister`
call: no broadcast and no write to bob's socket 2 is issued at all.
Additionally, a session idle 86700 > 300 seconds (one day plus 300 seconds)
is not evicted, because the code reads `timedelta.seconds`, the within-day
component. -/
theorem C2_counterexample :
    (400 - 0) % 86400 > CONNECTION_TIMEOUT
    ∧ alookup c2State.user_connections (.str "bob") = some 2
    ∧ alookup (health_check_tick c2State 400).1.active_users (.str "alice")
        = none
    ∧ (health_check_tick c2State 400).2 = [Output.unreg (.str "alice") none]
    ∧ ¬ (86700 - 0) % 86400 > CONNECTION_TIMEOUT
    ∧ alookup
        (health_check_tick ⟨[(.str "carol", 3)], [], [], [(.str "carol", 0)], 0⟩
          86700).1.active_users (.str "carol")
      = some 0 := by
  refine ⟨by decide, rfl, rfl, rfl, by decide, rfl⟩

/-- C2 amended: one reaper tick unregisters exactly those Sessions whose
within-day idle component `(now - last_activity) % 86400` exceeds the
configured timeout (so a session idle a full day or more can be missed), it
passes no connection id (the `connection_users` entry of the evicted session
leaks), and it issues **no** `user_offline` broadcast — its entire trace is
the `unregister` calls, so other sessions observe nothing. -/
theorem C2_reaper_no_broadcast (st : MState) (now : Nat) :
    (health_check_tick st now).2
      = ((st.active_users.filter
            (fun p => decide ((now - p.2) % 86400 > CONNECTION_TIMEOUT))).map
          (fun p => p.1)).map (fun u => Output.unreg u none)
    ∧ (∀ o ∈ (health_check_tick st now).2, ∃ u, o = Output.unreg u none)
    ∧ (health_check_tick st now).1.active_users
        = st.active_users.filter
            (fun p => decide (p.1 ∉
              (st.active_users.filter
                (fun q => decide ((now - q.2) % 86400 > CONNECTION_TIMEOUT))).map
                (fun q => q.1)))
    ∧ (health_check_tick st now).1.user_connections
        = st.user_connections.filter
            (fun p => decide (p.1 ∉
              (st.active_users.filter
                (fun q => decide ((now - q.2) % 86400 > CONNECTION_TIMEOUT))).map
                (fun q => q.1)))
    ∧ (health_check_tick st now).1.connection_users = st.connection_users
    ∧ (health_check_tick st now).1.user_channels = st.user_channels := by
  obtain ⟨h1, h2, h3, h4, h5⟩ :=
    foldl_unregister_state
      ((st.active_users.filter
          (fun p => decide ((now - p.2) % 86400 > CONNECTION_TIMEOUT))).map
        (fun p => p.1)) st
  refine ⟨rfl, ?_, ?_, ?_, ?_, ?_⟩
  · intro o ho
    simp only [health_check_tick, List.mem_map] at ho
    obtain ⟨u, _, hu⟩ := ho
    exact ⟨u, hu.symm⟩
  · exact h2
  · exact h1
  · exact h3
  · exact h4

/-- C2 witness: the amended theorem applied at the concrete two-user state,
together with the (trivially evaluated) facts it yields there. -/
theorem C2_reaper_no_broadcast_witness :
    (health_check_tick c2State 400).2
      = [Output.unreg (.str "alice") none]
    ∧ (∀ o ∈ (health_check_tick c2State 400).2, ∃ u, o = Output.unreg u none) :=
  ⟨by rfl, (C2_reaper_no_broadcast c2State 400).2.1⟩

/-! ### Claim C3 — broadcast failure isolation -/

/-- C3 counterexample: with alice on a closed socket 1 and bob on a healthy
socket 2, `broadcast` attempts the write to both — so one failure does not
block the other attempt — but `asyncio.gather` (with its default
`return_exceptions=False`) re-raises the `ConnectionClosed`, so the failure
**does** surface to the caller of `broadcast`, contradicting the claim that
no error is reported back. -/
theorem C3_counterexample :
    (broadcast (fun h => decide (h = 1))
        ⟨[(.str "alice", 1), (.str "bob", 2)], [], [], [], 0⟩
        (.str "m") .null).1
      = [Output.bcast (.str "m") .null,
         Output.send 1 (.str "m"), Output.send 2 (.str "m")]
    ∧ (broadcast (fun h => decide (h = 1))
        ⟨[(.str "alice", 1), (.str "bob", 2)], [], [], [], 0⟩
        (.str "m") .null).2
      = some PyExc.connectionClosed := by
  exact ⟨rfl, rfl⟩

/-- C3 amended: `broadcast` attempts a send to every registered identity other
than the excluded one, and a transport failure on one recipient does not
prevent the attempts to the remaining recipients (all writes are scheduled
together before `gather` awaits them); however the first failure is re-raised
by `gather` to the caller of `broadcast` instead of being swallowed. -/
theorem C3_broadcast_attempts_all (fails : Nat → Bool) (st : MState)
    (msg excl : JVal) :
    (broadcast fails st msg excl).1
      = Output.bcast msg excl ::
          (st.user_connections.filter (fun p => decide (p.1 ≠ excl))).map
            (fun p => Output.send p.2 msg)
    ∧ (∀ u h, (u, h) ∈ st.user_connections → u ≠ excl →
        Output.send h msg ∈ (broadcast fails st msg excl).1)
    ∧ ((broadcast fails st msg excl).2 = none ↔
        ∀ u h, (u, h) ∈ st.user_connections → u ≠ excl → fails h = false) := by
  have key : ((st.user_connections.filter (fun p => decide (p.1 ≠ excl))).any
        (fun p => fails p.2) = false) ↔
      (∀ u h, (u, h) ∈ st.user_connections → u ≠ excl → fails h = false) := by
    simp only [List.any_eq_false, List.mem_filter, decide_eq_true_eq,
      Bool.not_eq_true]
    constructor
    · intro hall u h hm hne
      exact hall (u, h) ⟨hm, hne⟩
    · rintro hall ⟨u, h⟩ ⟨hm, hne⟩
      exact hall u h hm hne
  refine ⟨rfl, ?_, ?_⟩
  · intro u h hm hne
    simp only [broadcast, List.mem_cons, List.mem_map, List.mem_filter]
    exact Or.inr ⟨(u, h), ⟨hm, by simpa using hne⟩, rfl⟩
  · rw [← key]
    show (if (st.user_connections.filter (fun p => decide (p.1 ≠ excl))).any
        (fun p => fails p.2) then some PyExc.connectionClosed else none) = none ↔ _
    cases hA : (st.user_connections.filter (fun p => decide (p.1 ≠ excl))).any
        (fun p => fails p.2) <;> simp [hA]

/-- C3 witness: the amended theorem applied at the concrete two-user state of
the counterexample, with the membership and exclusion hypotheses discharged
for bob. -/
theorem C3_broadcast_attempts_all_witness :
    (JVal.str "bob", 2) ∈
        (⟨[(.str "alice", 1), (.str "bob", 2)], [], [], [], 0⟩ : MState).user_connections
    ∧ JVal.str "bob" ≠ JVal.null
    ∧ Output.send 2 (.str "m") ∈
        (broadcast (fun h => decide (h = 1))
          ⟨[(.str "alice", 1), (.str "bob", 2)], [], [], [], 0⟩
          (.str "m") .null).1 :=
  ⟨by decide, by decide,
   (C3_broadcast_attempts_all (fun h => decide (h = 1))
      ⟨[(.str "alice", 1), (.str "bob", 2)], [], [], [], 0⟩
      (.str "m") .null).2.1 (.str "bob") 2 (by decide) (by decide)⟩

/-! ### Claim C10 — channel subscriptions survive disconnection -/

/-- C10: neither `unregister` (including the reaper's cid-less eviction) nor
`register` touches `user_channels`, so an identity that disconnects and later
re-registers starts with exactly the channel set its previous session had
subscribed. -/
theorem C10_channels_survive (st : MState) (uid u2 : JVal) (cid : Option Nat)
    (now h : Nat) :
    (unregister st uid cid).user_channels = st.user_channels
    ∧ ((register st now h u2).1).user_channels = st.user_channels
    ∧ (health_check_tick st now).1.user_channels = st.user_channels
    ∧ channels_of ((register (unregister st uid cid) now h uid).1) uid
        = channels_of st uid := by
  refine ⟨rfl, rfl, (foldl_unregister_state _ st).2.2.2.1, ?_⟩
  simp [channels_of, register, unregister]

/-! ### Claim C4 — envelope validation -/

/-- C4 counterexample: a frame that carries both a kind (`type`) and a payload
(`data`) but no `timestamp` is **not** accepted by the dispatcher —
`validate_message` demands all three of `type`, `data`, `timestamp` — so the
claimed "if and only if" fails in the "if" direction.  The frame is indeed
silently dropped: the loop step leaves the state unchanged and emits
nothing. -/
theorem C4_counterexample :
    (JObj.ofList [("type", .str "ping"), ("data", .obj .nil)]).hasKey "type" = true
    ∧ (JObj.ofList [("type", .str "ping"), ("data", .obj .nil)]).hasKey "data" = true
    ∧ validate_message (.obj (JObj.ofList [("type", .str "ping"), ("data", .obj .nil)]))
        = .ok false
    ∧ loopStep (fun _ => false) 0 1 (.str "alice") ⟨[], [], [], [], 0⟩
        (.frame (.obj (JObj.ofList [("type", .str "ping"), ("data", .obj .nil)])))
      = (⟨[], [], [], [], 0⟩, []) := by
  exact ⟨rfl, rfl, rfl, rfl⟩

/-- C4 amended: the dispatcher accepts a dict frame exactly when it carries
all three of `type`, `data` **and** `timestamp`; a frame failing validation is
silently dropped — the loop step leaves the registry state unchanged, sends
no reply, raises nothing, and the loop proceeds to the next frame. -/
theorem C4_validate_requires_timestamp (o : JObj) (fails : Nat → Bool)
    (now ws : Nat) (uid : JVal) (st : MState) :
    validate_message (.obj o)
      = .ok (o.hasKey "type" && o.hasKey "data" && o.hasKey "timestamp")
    ∧ (validate_message (.obj o) = .ok false →
        loopStep fails now ws uid st (.frame (.obj o)) = (st, [])) := by
  constructor
  · cases h1 : o.hasKey "type" <;> cases h2 : o.hasKey "data" <;>
      cases h3 : o.hasKey "timestamp" <;>
      simp only [validate_message, pyContains, h1, h2, h3] <;> rfl
  · intro hv
    simp [loopStep, handleFrameE, parseFrame, hv]

/-- C4 witness: the amended theorem applied to the concrete timestamp-less
frame of the counterexample. -/
theorem C4_validate_requires_timestamp_witness :
    validate_message (.obj (JObj.ofList [("type", .str "ping"), ("data", .obj .nil)]))
      = .ok false
    ∧ loopStep (fun _ => false) 0 1 (.str "a") ⟨[], [], [], [], 0⟩
        (.frame (.obj (JObj.ofList [("type", .str "ping"), ("data", .obj .nil)])))
      = (⟨[], [], [], [], 0⟩, []) :=
  ⟨rfl,
   (C4_validate_requires_timestamp
      (JObj.ofList [("type", .str "ping"), ("data", .obj .nil)])
      (fun _ => false) 0 1 (.str "a") ⟨[], [], [], [], 0⟩).2 rfl⟩

/-! ### Claim C5 — authentication -/

/-- C5 counterexample: three structurally different failures — a frame of the
wrong kind, an auth frame with no `token` field, and an auth frame with an
empty `token` — all produce the **same** rejection value `None`.
`authenticate`'s rejection carries no reason at all, so the claimed
distinguishable reasons `malformed` / `missing_fields` / `invalid_token` do
not exist in the code. -/
theorem C5_counterexample :
    authenticate (.obj (JObj.ofList [("type", .str "ping")])) = .ok none
    ∧ authenticate (.obj (JObj.ofList
        [("type", .str "auth"),
         ("data", .obj (JObj.ofList [("user_id", .str "alice")]))])) = .ok none
    ∧ authenticate (.obj (JObj.ofList
        [("type", .str "auth"),
         ("data", .obj (JObj.ofList
            [("user_id", .str "alice"), ("token", .str "")]))])) = .ok none := by
  exact ⟨rfl, rfl, rfl⟩

/-- C5 amended: on a dict frame whose `data` is a dict, `authenticate` returns
the payload's `user_id` exactly when the frame's kind is `"auth"` and the
payload carries a truthy (for strings: non-empty) `user_id` and a truthy
`token`; in every other case — and also when `data` is absent — it returns
`None`, a single undifferentiated rejection carrying no reason. -/
theorem C5_authenticate_characterization (o dobj : JObj) (u : JVal) :
    ((o.lookup "data" = some (.obj dobj)) →
      (authenticate (.obj o) = .ok (some u) ↔
        (o.lookup "type" = some (.str "auth")
          ∧ dobj.lookup "user_id" = some u ∧ truthy u = true
          ∧ ∃ tk, dobj.lookup "token" = some tk ∧ truthy tk = true)))
    ∧ ((o.lookup "data" = none) → authenticate (.obj o) = .ok none) := by
  constructor
  · intro hd
    by_cases ht : o.lookup "type" = some (.str "auth")
    · have hred : authenticate (.obj o)
          = (if (truthyO (dobj.lookup "user_id")
                  && truthyO (dobj.lookup "token")) = true
             then Except.ok (dobj.lookup "user_id") else Except.ok none) := by
        simp only [authenticate, jget, jgetD, bind, Except.bind, ht, hd,
          Option.getD_some, pure, Except.pure, if_pos]
      rw [hred]
      constructor
      · intro h
        by_cases hb : (truthyO (dobj.lookup "user_id")
            && truthyO (dobj.lookup "token")) = true
        · rw [if_pos hb] at h
          have h' : dobj.lookup "user_id" = some u := Except.ok.inj h
          obtain ⟨hb1, hb2⟩ : truthyO (dobj.lookup "user_id") = true
              ∧ truthyO (dobj.lookup "token") = true := by simpa using hb
          rw [h'] at hb1
          refine ⟨ht, h', by simpa [truthyO] using hb1, ?_⟩
          cases htk : dobj.lookup "token" with
          | none => rw [htk] at hb2; simp [truthyO] at hb2
          | some tk =>
              rw [htk] at hb2
              exact ⟨tk, rfl, by simpa [truthyO] using hb2⟩
        · rw [if_neg hb] at h
          exact Option.noConfusion (Except.ok.inj h)
      · rintro ⟨-, h2, h3, tk, htk2, h4⟩
        have hb : (truthyO (dobj.lookup "user_id")
            && truthyO (dobj.lookup "token")) = true := by
          rw [h2, htk2]; simp [truthyO, h3, h4]
        rw [if_pos hb, h2]
    · have hred : authenticate (.obj o) = .ok none := by
        simp only [authenticate, jget, jgetD, bind, Except.bind]
        rw [if_neg ht]; rfl
      rw [hred]
      constructor
      · intro h; exact Option.noConfusion (Except.ok.inj h)
      · rintro ⟨h1, -⟩; exact absurd h1 ht
  · intro hd
    by_cases ht : o.lookup "type" = some (.str "auth") <;>
      simp [authenticate, jget, jgetD, ht, hd, bind, Except.bind, pure,
        Except.pure, truthyO, JObj.lookup]

/-- C5 witness: the amended characterization applied to a concrete well-formed
auth frame, yielding the accepted identity. -/
theorem C5_authenticate_characterization_witness :
    authenticate (.obj (JObj.ofList
      [("type", .str "auth"),
       ("data", .obj (JObj.ofList
          [("user_id", .str "alice"), ("token", .str "tok")]))]))
      = .ok (some (.str "alice")) :=
  ((C5_authenticate_characterization
      (JObj.ofList
        [("type", .str "auth"),
         ("data", .obj (JObj.ofList
            [("user_id", .str "alice"), ("token", .str "tok")]))])
      (JObj.ofList [("user_id", .str "alice"), ("token", .str "tok")])
      (.str "alice")).1 rfl).mpr
    ⟨rfl, rfl, rfl, .str "tok", rfl, rfl⟩

/-! ### Claim C6 — re-registration is last-writer-wins -/

/-- C6: registering the same identity twice yields two distinct connection
ids (the uuid4 draws are fresh), the registry then maps the identity to the
newer socket `h2`, and `send_to_user` after the second registration writes to
`h2` — its trace mentions only `h2`, and when the two handles differ it never
writes to the superseded `h1`. -/
theorem C6_reregister_last_writer_wins (st : MState) (now1 now2 h1 h2 : Nat)
    (uid msg : JVal) (fails : Nat → Bool) :
    (register st now1 h1 uid).2
        ≠ (register (register st now1 h1 uid).1 now2 h2 uid).2
    ∧ alookup
        ((register (register st now1 h1 uid).1 now2 h2 uid).1).user_connections
        uid = some h2
    ∧ (send_to_user fails (register (register st now1 h1 uid).1 now2 h2 uid).1
        uid msg).2.1
      = Output.send h2 msg :: (if fails h2 then [Output.unreg uid none] else [])
    ∧ (send_to_user fails (register (register st now1 h1 uid).1 now2 h2 uid).1
        uid msg).2.2 = !fails h2
    ∧ (h1 ≠ h2 → ∀ m, Output.send h1 m ∉
        (send_to_user fails (register (register st now1 h1 uid).1 now2 h2 uid).1
          uid msg).2.1) := by
  have hl : alookup
      ((register (register st now1 h1 uid).1 now2 h2 uid).1).user_connections
      uid = some h2 := by
    simp only [register]
    exact alookup_aset_self _ _ _
  refine ⟨by simp [register], hl, ?_, ?_, ?_⟩
  · cases hfl : fails h2 <;> simp [send_to_user, hl, hfl]
  · cases hfl : fails h2 <;> simp [send_to_user, hl, hfl]
  · intro hne m
    cases hfl : fails h2 <;> simp [send_to_user, hl, hfl] <;>
      intro hcon
    · exact absurd hcon hne
    · exact absurd hcon hne

/-- C6 witness: the theorem applied at a concrete state and distinct handles,
with the `h1 ≠ h2` hypothesis discharged. -/
theorem C6_reregister_last_writer_wins_witness :
    (7 : Nat) ≠ 8
    ∧ Output.send 7 (.str "x") ∉
        (send_to_user (fun _ => false)
          (register (register ⟨[], [], [], [], 0⟩ 1 7 (.str "alice")).1 2 8
            (.str "alice")).1
          (.str "alice") (.str "x")).2.1 :=
  ⟨by decide,
   (C6_reregister_last_writer_wins ⟨[], [], [], [], 0⟩ 1 2 7 8 (.str "alice")
      (.str "x") (fun _ => false)).2.2.2.2 (by decide) (.str "x")⟩

/-! ### Claim C7 — message receipts -/

/-- The boolean returned by `send_to_user`: true exactly when the target is
registered and its socket write succeeds. -/
theorem send_to_user_delivered (fails : Nat → Bool) (st : MState) (u m : JVal) :
    (send_to_user fails st u m).2.2
      = (match alookup st.user_connections u with
         | some h => !fails h
         | none => false) := by
  cases h : alookup st.user_connections u with
  | none => simp [send_to_user, h]
  | some ws => cases hf : fails ws <;> simp [send_to_user, h, hf]

/-- C7: for every accepted `send_message` frame carrying a truthy
`target_user` and `content`, the dispatcher's trace for that frame ends with
a `message_receipt` write back to the sender's own socket whose `status` is
`"delivered"` exactly when the target was registered on a non-failing socket
(which by `send_to_user_delivered` is exactly `send_to`'s return value), and
whose payload `message_id` is the original frame's `message_id`, unchanged
(`null` when absent), with the target echoed. -/
theorem C7_receipt_echo (fails : Nat → Bool) (now ws : Nat) (uid : JVal)
    (st : MState) (o dobj : JObj) (tv cv : JVal)
    (h1 : o.lookup "type" = some (.str "send_message"))
    (h2 : o.lookup "data" = some (.obj dobj))
    (h3 : o.hasKey "timestamp" = true)
    (h4 : dobj.lookup "target_user" = some tv) (h5 : truthy tv = true)
    (h6 : dobj.lookup "content" = some cv) (h7 : truthy cv = true) :
    ∃ rcpt rd,
      ((loopStep fails now ws uid st (.frame (.obj o))).2).getLast?
        = some (Output.send ws (.obj rcpt))
      ∧ rcpt.lookup "type" = some (.str "message_receipt")
      ∧ rcpt.lookup "data" = some (.obj rd)
      ∧ rd.lookup "status"
          = some (.str (if (match alookup st.user_connections tv with
                            | some h => !fails h
                            | none => false) = true
                        then "delivered" else "failed"))
      ∧ rd.lookup "message_id" = some ((o.lookup "message_id").getD .null)
      ∧ rd.lookup "target_user" = some tv := by
  have k1 : o.hasKey "type" = true := by simp [JObj.hasKey, h1]
  have k2 : o.hasKey "data" = true := by simp [JObj.hasKey, h2]
  have hv : validate_message (.obj o) = .ok true := by
    simp only [validate_message, pyContains, k1, k2, h3]
    rfl
  cases hlk : alookup st.user_connections tv with
  | none =>
      simp only [loopStep, handleFrameE, parseFrame, hv, h1, h2, jget, h4, h6,
        h5, h7, truthyO, Bool.and_self, Option.getD_some, if_true,
        update_user_activity, send_to_user, hlk, create_message]
      exact ⟨_, _, rfl, rfl, rfl, rfl, rfl, rfl⟩
  | some wt =>
      cases hf : fails wt <;>
        simp only [loopStep, handleFrameE, parseFrame, hv, h1, h2, jget, h4,
          h6, h5, h7, truthyO, Bool.and_self, Option.getD_some, if_true,
          update_user_activity, send_to_user, hlk, hf, create_message,
          Bool.not_false, Bool.not_true] <;>
        exact ⟨_, _, rfl, rfl, rfl, rfl, rfl, rfl⟩

/-- C7 witness: the theorem at a concrete frame from alice to bob, with bob
registered on a healthy socket. -/
theorem C7_receipt_echo_witness :
    ∃ rcpt rd,
      ((loopStep (fun _ => false) 5 1 (.str "alice")
          ⟨[(.str "bob", 2)], [], [], [(.str "bob", 0)], 9⟩
          (.frame (.obj (JObj.ofList
            [("type", .str "send_message"),
             ("data", .obj (JObj.ofList
                [("target_user", .str "bob"), ("content", .str "hi")])),
             ("timestamp", .str "t"), ("message_id", .str "m1")])))).2).getLast?
        = some (Output.send 1 (.obj rcpt))
      ∧ rcpt.lookup "type" = some (.str "message_receipt")
      ∧ rcpt.lookup "data" = some (.obj rd)
      ∧ rd.lookup "status"
          = some (.str (if (match alookup
                ((⟨[(.str "bob", 2)], [], [], [(.str "bob", 0)], 9⟩ :
                    MState)).user_connections (.str "bob") with
                            | some h => !(fun _ => false) h
                            | none => false) = true
                        then "delivered" else "failed"))
      ∧ rd.lookup "message_id"
          = some (((JObj.ofList
              [("type", .str "send_message"),
               ("data", .obj (JObj.ofList
                  [("target_user", .str "bob"), ("content", .str "hi")])),
               ("timestamp", .str "t"),
               ("message_id", .str "m1")]).lookup "message_id").getD .null)
      ∧ rd.lookup "target_user" = some (.str "bob") :=
  C7_receipt_echo (fun _ => false) 5 1 (.str "alice")
    ⟨[(.str "bob", 2)], [], [], [(.str "bob", 0)], 9⟩
    (JObj.ofList
      [("type", .str "send_message"),
       ("data", .obj (JObj.ofList
          [("target_user", .str "bob"), ("content", .str "hi")])),
       ("timestamp", .str "t"), ("message_id", .str "m1")])
    (JObj.ofList [("target_user", .str "bob"), ("content", .str "hi")])
    (.str "bob") (.str "hi") rfl rfl rfl rfl rfl rfl rfl

/-! ### Claim C9 — frame errors never escape the read loop -/

/-- C9: when processing one frame raises any Python exception (malformed
JSON, a payload of the wrong shape, a failing reply write, …), the loop's
`except` clauses absorb it: the loop continues with the remaining frames from
the state the failed step left behind, and the dispatcher itself never sees
the exception.  No frame's content can terminate the read loop. -/
theorem C9_frame_errors_contained (fails : Nat → Bool) (now ws : Nat)
    (uid : JVal) (st st1 : MState) (outs : List Output) (e : PyExc)
    (f : RawFrame) (rest : List RawFrame)
    (h : handleFrameE fails now ws uid st f = (st1, outs, some e)) :
    runLoop fails now ws uid st (f :: rest)
      = ((runLoop fails now ws uid st1 rest).1,
         outs ++ (runLoop fails now ws uid st1 rest).2) := by
  simp [runLoop, loopStep, h]

/-- C9 witness: the containment theorem applied to two concrete poison
frames — raw text that is not JSON (`JSONDecodeError`) and a validated frame
whose `data` field is a string, so that `data["data"].get(...)` raises
`AttributeError` after the activity touch already happened. -/
theorem C9_frame_errors_contained_witness :
    handleFrameE (fun _ => false) 3 1 (.str "a") ⟨[], [], [], [], 0⟩ .malformed
      = (⟨[], [], [], [], 0⟩, [], some .jsonDecodeError)
    ∧ runLoop (fun _ => false) 3 1 (.str "a") ⟨[], [], [], [], 0⟩ [.malformed]
      = ((runLoop (fun _ => false) 3 1 (.str "a") ⟨[], [], [], [], 0⟩ []).1,
         [] ++ (runLoop (fun _ => false) 3 1 (.str "a") ⟨[], [], [], [], 0⟩ []).2)
    ∧ handleFrameE (fun _ => false) 3 1 (.str "a") ⟨[], [], [], [], 0⟩
        (.frame (.obj (JObj.ofList
          [("type", .str "send_message"), ("data", .str "oops"),
           ("timestamp", .str "t")])))
      = (⟨[], [], [], [(.str "a", 3)], 0⟩, [], some .attributeError)
    ∧ runLoop (fun _ => false) 3 1 (.str "a") ⟨[], [], [], [], 0⟩
        [.frame (.obj (JObj.ofList
          [("type", .str "send_message"), ("data", .str "oops"),
           ("timestamp", .str "t")]))]
      = ((runLoop (fun _ => false) 3 1 (.str "a")
            ⟨[], [], [], [(.str "a", 3)], 0⟩ []).1,
         [] ++ (runLoop (fun _ => false) 3 1 (.str "a")
            ⟨[], [], [], [(.str "a", 3)], 0⟩ []).2) :=
  ⟨rfl,
   C9_frame_errors_contained (fun _ => false) 3 1 (.str "a") ⟨[], [], [], [], 0⟩
     ⟨[], [], [], [], 0⟩ [] .jsonDecodeError .malformed [] rfl,
   rfl,
   C9_frame_errors_contained (fun _ => false) 3 1 (.str "a") ⟨[], [], [], [], 0⟩
     ⟨[], [], [], [(.str "a", 3)], 0⟩ [] .attributeError
     (.frame (.obj (JObj.ofList
        [("type", .str "send_message"), ("data", .str "oops"),
         ("timestamp", .str "t")]))) [] rfl⟩

/-! ### Claim C8 — cleanup on CLOSED, exactly once -/

/-- Outputs the read loop can produce: socket writes and cid-less unregisters
(from `send_to_user` failures).  Broadcast calls and cid-carrying unregisters
only ever come from the dispatcher's handshake and `finally` paths. -/
def benign : Output → Bool
  | .send _ _ => true
  | .unreg _ none => true
  | .unreg _ (some _) => false
  | .bcast _ _ => false

/-- The `finally`-block unregister of a given identity: an `unregister` call
that passes a connection id. -/
def isCleanupUnreg (u : JVal) : Output → Bool
  | .unreg u2 (some _) => decide (u2 = u)
  | _ => false

/-- A `broadcast` call of a `user_offline` envelope excluding a given
identity. -/
def isOfflineBcast (u : JVal) : Output → Bool
  | .bcast (.obj m) e =>
      decide (m.lookup "type" = some (.str "user_offline")) && decide (e = u)
  | _ => false

theorem send_to_user_all_benign (fails : Nat → Bool) (st : MState)
    (u m : JVal) : ((send_to_user fails st u m).2.1).all benign = true := by
  cases h : alookup st.user_connections u with
  | none => simp [send_to_user, h]
  | some ws => cases hf : fails ws <;> simp [send_to_user, h, hf, benign]

theorem all_benign_append_send (souts : List Output)
    (h : souts.all benign = true) (ws : Nat) (r : JVal) :
    ((souts ++ [Output.send ws r]).all benign) = true := by
  simp [List.all_append, h, benign]

theorem handleFrameE_all_benign (fails : Nat → Bool) (now ws : Nat)
    (uid : JVal) (st : MState) (f : RawFrame) :
    ((handleFrameE fails now ws uid st f).2.1).all benign = true := by
  cases f with
  | malformed => rfl
  | frame v =>
    simp only [handleFrameE, parseFrame]
    cases hv : validate_message v with
    | error e => simp
    | ok b =>
      cases b with
      | false => simp
      | true =>
        cases v with
        | str s => simp
        | num n => simp
        | bool bb => simp
        | null => simp
        | arr a => simp
        | obj o =>
          simp only []
          cases hty : o.lookup "type" with
          | none => simp [hty]
          | some mt =>
            simp only [hty]
            by_cases hp : mt = JVal.str "ping"
            · simp [hp, benign]
            · rw [if_neg hp]
              by_cases hsm : mt = JVal.str "send_message"
              · rw [if_pos hsm]
                cases hdd : o.lookup "data" with
                | none => simp [hdd]
                | some d =>
                  simp only [hdd]
                  cases hjt : jget d "target_user" with
                  | error e => simp [hjt]
                  | ok target =>
                    simp only [hjt]
                    cases hjc : jget d "content" with
                    | error e => simp [hjc]
                    | ok content =>
                      simp only [hjc]
                      by_cases hc : (truthyO target && truthyO content) = true
                      · rw [if_pos hc]
                        exact all_benign_append_send _
                          (send_to_user_all_benign _ _ _ _) _ _
                      · rw [if_neg hc]; simp
              · rw [if_neg hsm]
                by_cases hsub : mt = JVal.str "subscribe"
                · rw [if_pos hsub]
                  cases hdd : o.lookup "data" with
                  | none => simp [hdd]
                  | some d =>
                    simp only [hdd]
                    cases hjc : jget d "channel" with
                    | error e => simp [hjc]
                    | ok channel =>
                      simp only [hjc]
                      cases hc : truthyO channel with
                      | false => simp [hc]
                      | true => simp [hc]
                · rw [if_neg hsub]
                  by_cases huns : mt = JVal.str "unsubscribe"
                  · rw [if_pos huns]
                    cases hdd : o.lookup "data" with
                    | none => simp [hdd]
                    | some d =>
                      simp only [hdd]
                      cases hjc : jget d "channel" with
                      | error e => simp [hjc]
                      | ok channel =>
                        simp only [hjc]
                        cases hc : truthyO channel with
                        | false => simp [hc]
                        | true =>
                          split <;> (try split) <;> simp
                  · rw [if_neg huns]
                    by_cases hget : mt = JVal.str "get_online_users"
                    · rw [if_pos hget]
                      simp [create_message, benign]
                    · rw [if_neg hget]
                      simp

theorem runLoop_all_benign (fails : Nat → Bool) (now ws : Nat) (uid : JVal)
    (frames : List RawFrame) (st : MState) :
    ((runLoop fails now ws uid st frames).2).all benign = true := by
  induction frames generalizing st with
  | nil => rfl
  | cons f rest ih =>
      simp [runLoop, loopStep, List.all_append, handleFrameE_all_benign, ih]

theorem countP_eq_zero_of_benign (l : List Output) (p : Output → Bool)
    (hl : l.all benign = true) (hp : ∀ o, benign o = true → p o = false) :
    l.countP p = 0 := by
  rw [List.countP_eq_zero]
  intro a ha
  simp [hp a (List.all_eq_true.mp hl a ha)]

theorem cleanup_pred_benign (u : JVal) :
    ∀ o, benign o = true → isCleanupUnreg u o = false := by
  intro o hb
  cases o with
  | send h m => rfl
  | unreg u2 c =>
      cases c with
      | none => rfl
      | some cc => simp [benign] at hb
  | bcast m e => simp [benign] at hb

theorem offline_pred_benign (u : JVal) :
    ∀ o, benign o = true → isOfflineBcast u o = false := by
  intro o hb
  cases o with
  | send h m => rfl
  | unreg u2 c =>
      cases c with
      | none => rfl
      | some cc => simp [benign] at hb
  | bcast m e => simp [benign] at hb

/-- Every envelope built by `create_message` starts with its `type` field. -/
theorem create_message_snd (st : MState) (now : Nat) (mt : String)
    (data sender : JVal) :
    ∃ rest, (create_message st now mt data sender).2
      = .obj (JObj.cons "type" (.str mt) rest) := by
  simp only [create_message]
  cases truthy sender <;> exact ⟨_, rfl⟩

theorem offline_bcast_eval (u : JVal) (st : MState) (now : Nat) (d s : JVal) :
    isOfflineBcast u
      (Output.bcast (create_message st now "user_offline" d s).2 u) = true := by
  obtain ⟨r, hr⟩ := create_message_snd st now "user_offline" d s
  rw [hr]
  simp [isOfflineBcast, JObj.lookup]

theorem online_bcast_eval (u e : JVal) (st : MState) (now : Nat) (d s : JVal) :
    isOfflineBcast u
      (Output.bcast (create_message st now "user_online" d s).2 e) = false := by
  obtain ⟨r, hr⟩ := create_message_snd st now "user_online" d s
  rw [hr]
  simp [isOfflineBcast, JObj.lookup]

theorem countP_map_send_zero (p : Output → Bool)
    (hp : ∀ h mm, p (Output.send h mm) = false) (l : List (JVal × Nat))
    (m : JVal) : (l.map (fun q => Output.send q.2 m)).countP p = 0 := by
  rw [List.countP_eq_zero]
  intro a ha
  obtain ⟨q, -, rfl⟩ := List.mem_map.mp ha
  simp [hp]

/-- The count of any send-ignoring predicate over a broadcast's trace is
decided by its `bcast` marker alone. -/
theorem countP_broadcast (fails : Nat → Bool) (st2 : MState) (msg ex : JVal)
    (p : Output → Bool) (hsend : ∀ h mm, p (Output.send h mm) = false) :
    ((broadcast fails st2 msg ex).1).countP p
      = if p (Output.bcast msg ex) then 1 else 0 := by
  simp only [broadcast, List.countP_cons, countP_map_send_zero p hsend]
  cases p (Output.bcast msg ex) <;> simp

/-- The read-loop body of an active connection contributes no cleanup event:
no cid-carrying unregister and no bcast that any send-ignoring, benignness-
respecting, online-broadcast-rejecting predicate counts. -/
theorem activeBody_countP_zero (fails : Nat → Bool) (now ws : Nat) (uid : JVal)
    (cid : Nat) (st : MState) (frames : List RawFrame) (p : Output → Bool)
    (hp : ∀ o, benign o = true → p o = false)
    (hon : ∀ (stx : MState) (d s e : JVal),
      p (Output.bcast (create_message stx now "user_online" d s).2 e) = false) :
    ((activeBody fails now ws uid cid st frames).2).countP p = 0 := by
  have hsend : ∀ h m, p (Output.send h m) = false := fun h m => hp _ rfl
  have hloop : ∀ (stx : MState),
      ((runLoop fails now ws uid stx frames).2).countP p = 0 := fun stx =>
    countP_eq_zero_of_benign _ _ (runLoop_all_benign _ _ _ _ _ _) hp
  simp only [activeBody]
  split
  · simp [List.countP_cons, hsend]
  · split
    · simp [broadcast, List.countP_cons, List.countP_append,
        countP_map_send_zero p hsend, hsend, hon]
    · simp [broadcast, List.countP_cons, List.countP_append,
        countP_map_send_zero p hsend, hsend, hon, hloop]

/-- C8: for every connection whose first frame authenticates to a truthy
identity — whatever frames follow and however the read loop terminates — the
dispatcher's whole trace contains exactly one cid-carrying
`unregister(identity, connection_id)` call and exactly one broadcast of a
`user_offline` envelope excluding that identity: the `finally`-block cleanup
runs exactly once, on every termination path. -/
theorem C8_cleanup_exactly_once (fails : Nat → Bool) (now ws : Nat)
    (inp : ConnInput) (st0 : MState) (raw : RawFrame) (ad : JVal)
    (uo : Option JVal)
    (haf : inp.authFrame = some raw) (hpf : parseFrame raw = Except.ok ad)
    (hau : authenticate ad = Except.ok uo) (htr : truthyO uo = true) :
    ((handle_message fails now ws inp st0).2).countP
        (isCleanupUnreg (uo.getD .null)) = 1
    ∧ ((handle_message fails now ws inp st0).2).countP
        (isOfflineBcast (uo.getD .null)) = 1 := by
  have hcb := cleanup_pred_benign (uo.getD .null)
  have hob := offline_pred_benign (uo.getD .null)
  have hcsend : ∀ h m, isCleanupUnreg (uo.getD .null) (Output.send h m) = false :=
    fun h m => rfl
  have hosend : ∀ h m, isOfflineBcast (uo.getD .null) (Output.send h m) = false :=
    fun h m => rfl
  constructor
  · simp only [handle_message, haf, hpf, hau, htr, eq_self_iff_true, if_true,
      List.countP_append]
    rw [activeBody_countP_zero _ _ _ _ _ _ _ _ hcb
        (fun stx d s e => rfl)]
    rw [countP_broadcast _ _ _ _ _ hcsend]
    simp [List.countP_cons, isCleanupUnreg, isOfflineBcast]
  · simp only [handle_message, haf, hpf, hau, htr, eq_self_iff_true, if_true,
      List.countP_append]
    rw [activeBody_countP_zero _ _ _ _ _ _ _ _ hob
        (fun stx d s e => online_bcast_eval _ _ _ _ _ _)]
    rw [countP_broadcast _ _ _ _ _ hosend]
    rw [offline_bcast_eval]
    simp [List.countP_cons, isOfflineBcast]

/-- C8 witness: a concrete connection (alice authenticates, pings once, then
the transport closes) whose trace carries the cleanup pair exactly once. -/
theorem C8_cleanup_exactly_once_witness :
    ((handle_message (fun _ => false) 7 1
        ⟨some (.frame (.obj (JObj.ofList
            [("type", .str "auth"),
             ("data", .obj (JObj.ofList
                [("user_id", .str "alice"), ("token", .str "tok")]))]))),
         [.frame (.obj (JObj.ofList
            [("type", .str "ping"), ("data", .obj .nil),
             ("timestamp", .str "t")]))],
         .connClosed⟩
        ⟨[], [], [], [], 0⟩).2).countP
      (isCleanupUnreg ((some (JVal.str "alice")).getD .null)) = 1
    ∧ ((handle_message (fun _ => false) 7 1
        ⟨some (.frame (.obj (JObj.ofList
            [("type", .str "auth"),
             ("data", .obj (JObj.ofList
                [("user_id", .str "alice"), ("token", .str "tok")]))]))),
         [.frame (.obj (JObj.ofList
            [("type", .str "ping"), ("data", .obj .nil),
             ("timestamp", .str "t")]))],
         .connClosed⟩
        ⟨[], [], [], [], 0⟩).2).countP
      (isOfflineBcast ((some (JVal.str "alice")).getD .null)) = 1 :=
  C8_cleanup_exactly_once (fun _ => false) 7 1
    ⟨some (.frame (.obj (JObj.ofList
        [("type", .str "auth"),
         ("data", .obj (JObj.ofList
            [("user_id", .str "alice"), ("token", .str "tok")]))]))),
     [.frame (.obj (JObj.ofList
        [("type", .str "ping"), ("data", .obj .nil),
         ("timestamp", .str "t")]))],
     .connClosed⟩
    ⟨[], [], [], [], 0⟩
    (.frame (.obj (JObj.ofList
      [("type", .str "auth"),
       ("data", .obj (JObj.ofList
          [("user_id", .str "alice"), ("token", .str "tok")]))])))
    (.obj (JObj.ofList
      [("type", .str "auth"),
       ("data", .obj (JObj.ofList
          [("user_id", .str "alice"), ("token", .str "tok")]))]))
    (some (.str "alice")) rfl rfl rfl rfl

end WsServer
